import Mathlib

/-!
Shallow embedding of the route domain model and persistence layer of
gps-route-tracker (src/app.js): Coordinate, the haversine distance,
Route with its derived metrics and rendering helpers, the formatting
helper humanizeSeconds, and RouteDatabase.insertRoute / listRoutes over
a model of the backing IndexedDB object store.

JavaScript numbers used as latitudes, longitudes and durations are
modelled by rationals (the store claims copy them verbatim), Date values
by their epoch-millisecond integer, and the real-valued trigonometric
distance computation over the reals.
-/

/-- One observed location: latitude and longitude in degrees and a
timestamp, modelling class Coordinate (src/app.js lines 48-60). A Date
is modelled by its getTime epoch-millisecond value. -/
structure Coordinate where
  lat : ℚ
  lon : ℚ
  timestamp : ℤ
deriving DecidableEq

/-- The Coordinate constructor (src/app.js line 55-59): the timestamp
defaults to the current time when null or undefined; a supplied Date is
always truthy and therefore kept. -/
def Coordinate.make (lat lon : ℚ) (timestamp : Option ℤ) (now : ℤ) : Coordinate :=
  ⟨lat, lon, timestamp.getD now⟩

/-- A tracked route, modelling class Route (src/app.js lines 91-187):
an optional numeric id (none models null), the creation instant, and
the ordered coordinate sequence. -/
structure Route where
  id : Option ℤ
  created : ℤ
  coordinates : List Coordinate
deriving DecidableEq

/-- The Route constructor with its null defaults (src/app.js lines
98-102): created falls back to the current time, coordinates to the
empty list; a Date or an array (even empty) is truthy and kept. -/
def Route.make (id : Option ℤ) (created : Option ℤ) (coordinates : Option (List Coordinate))
    (now : ℤ) : Route :=
  ⟨id, created.getD now, coordinates.getD []⟩

/-- Route.add (src/app.js lines 109-111): append a coordinate stamped
with the current time. -/
def Route.addCoordinate (r : Route) (lat lon : ℚ) (now : ℤ) : Route :=
  { r with coordinates := r.coordinates ++ [Coordinate.make lat lon none now] }

/-- JavaScript Math.atan2 over the reals (the quadrant-aware
arctangent); used by haversine. -/
noncomputable def atan2 (y x : ℝ) : ℝ :=
  if 0 < x then Real.arctan (y / x)
  else if x < 0 ∧ 0 ≤ y then Real.arctan (y / x) + Real.pi
  else if x < 0 ∧ y < 0 then Real.arctan (y / x) - Real.pi
  else if x = 0 ∧ 0 < y then Real.pi / 2
  else if x = 0 ∧ y < 0 then -(Real.pi / 2)
  else 0

/-- The intermediate value a of the haversine formula (src/app.js lines
71-84): squared half-angle sines of the latitude and longitude deltas
of the radian-converted inputs. -/
noncomputable def haversineA (pointA pointB : Coordinate) : ℝ :=
  let pointALatRad := ((pointA.lat : ℝ) * Real.pi) / 180
  let pointALonRad := ((pointA.lon : ℝ) * Real.pi) / 180
  let pointBLatRad := ((pointB.lat : ℝ) * Real.pi) / 180
  let pointBLonRad := ((pointB.lon : ℝ) * Real.pi) / 180
  let latDelta := pointBLatRad - pointALatRad
  let lonDelta := pointBLonRad - pointALonRad
  Real.sin (latDelta / 2) * Real.sin (latDelta / 2) +
    Real.cos pointALatRad * Real.cos pointBLatRad *
      Real.sin (lonDelta / 2) * Real.sin (lonDelta / 2)

/-- The haversine great-circle distance in kilometers with Earth radius
6371 (src/app.js lines 68-89). -/
noncomputable def haversine (pointA pointB : Coordinate) : ℝ :=
  let a := haversineA pointA pointB
  let c := 2 * atan2 (Real.sqrt a) (Real.sqrt (1 - a))
  6371 * c

/-- The accumulation loop of Route.getLength (src/app.js lines
120-122): sum of haversine distances between consecutive coordinates. -/
noncomputable def routeLengthAux : List Coordinate → ℝ
  | [] => 0
  | [_] => 0
  | a :: b :: rest => haversine a b + routeLengthAux (b :: rest)

/-- Route.getLength (src/app.js lines 117-124): 0 for fewer than two
coordinates, otherwise the cumulative pairwise haversine distance. -/
noncomputable def Route.getLength (r : Route) : ℝ :=
  if r.coordinates.length < 2 then 0 else routeLengthAux r.coordinates

/-- Route.getDuration (src/app.js lines 130-137): 0 for fewer than two
coordinates, otherwise the millisecond difference between the last and
first timestamps divided by 1000. -/
def Route.getDuration (r : Route) : ℚ :=
  if r.coordinates.length < 2 then 0
  else (((r.coordinates.getLastD ⟨0, 0, 0⟩).timestamp -
      (r.coordinates.headD ⟨0, 0, 0⟩).timestamp : ℤ) : ℚ) / 1000

/-- Route.getAvgSpeed (src/app.js lines 142-145): 0 for fewer than two
coordinates, otherwise length divided by the duration in hours. -/
noncomputable def Route.getAvgSpeed (r : Route) : ℝ :=
  if r.coordinates.length < 2 then 0
  else r.getLength / ((r.getDuration : ℝ) / 3600)

/-- Normalization of one JavaScript Array.prototype.slice index against
a length: a negative index counts from the end (clamped below at 0), a
non-negative one is clamped above at the length. -/
def jsSliceIndex (len : ℕ) (i : ℤ) : ℕ :=
  if i < 0 then ((len : ℤ) + i).toNat else min i.toNat len

/-- JavaScript Array.prototype.slice with a start and an end index: the
elements between the two normalized indices. -/
def jsSlice {α : Type} (l : List α) (start stop : ℤ) : List α :=
  (l.take (jsSliceIndex l.length stop)).drop (jsSliceIndex l.length start)

/-- The coordinate list rendered by Route.toHtml (src/app.js line 152):
coordinates.slice(-10, -1).reverse(). -/
def Route.htmlCoordinates (r : Route) : List Coordinate :=
  (jsSlice r.coordinates (-10) (-1)).reverse

/-- Whether Route.toHtml appends the elision list item (src/app.js line
153): coordinates.length > 9. -/
def Route.htmlEllipsis (r : Route) : Bool :=
  r.coordinates.length > 9

/-- The secondUnits table in its Object.keys insertion order
(src/app.js lines 23-28). -/
def secondUnits : List (String × ℕ) := [("d", 86400), ("h", 3600), ("m", 60), ("s", 1)]

/-- The loop of humanizeSeconds (src/app.js lines 37-45): for each
unit, floor-divide, append the amount and unit when non-zero (with a
comma separator when the string is already non-empty), and keep the
remainder. -/
def humanizeSecondsAux : List (String × ℕ) → String → ℕ → String
  | [], s, _ => s
  | (unit, conversion) :: rest, s, number =>
    humanizeSecondsAux rest
      (if number / conversion ≠ 0 then
        (if s.length ≠ 0 then s ++ ", " else s) ++ toString (number / conversion) ++ " " ++ unit
      else s)
      (number % conversion)

/-- humanizeSeconds (src/app.js lines 35-47), restricted to
non-negative whole seconds. -/
def humanizeSeconds (number : ℕ) : String :=
  humanizeSecondsAux secondUnits "" number

/-- Specification-side reading of the decomposition: the list of
non-zero components in descending unit order, each rendered as the
amount, a space and the unit letter. -/
def durationParts : List (String × ℕ) → ℕ → List String
  | [], _ => []
  | (unit, conversion) :: rest, number =>
    (if number / conversion ≠ 0 then [toString (number / conversion) ++ " " ++ unit] else []) ++
      durationParts rest (number % conversion)

/-- Specification-side joining of components by a comma and a space. -/
def joinComma : List String → String
  | [] => ""
  | [a] => a
  | a :: b :: rest => a ++ ", " ++ joinComma (b :: rest)

/-- The id property of a plain JavaScript record object: absent, null,
or carrying a number. -/
inductive IdField where
  | absent
  | null
  | val (v : ℤ)
deriving DecidableEq

/-- A plain object of route shape, as handed to and read back from the
object store. -/
structure PlainRoute where
  id : IdField
  created : ℤ
  coordinates : List Coordinate
deriving DecidableEq

/-- The shallow spread copy of a route taken on src/app.js line 232:
every own property is copied, so a null id yields an id property that
is present and null. -/
def Route.spreadCopy (r : Route) : PlainRoute :=
  ⟨match r.id with | none => IdField.null | some v => IdField.val v, r.created, r.coordinates⟩

/-- Lines 232-233 of RouteDatabase.insertRoute: the local name is
rebound to a fresh shallow copy and the id property is deleted from
that copy when it is null; the object the caller passed is never
written to. Returns the pair of the object the caller still holds
after those lines and the record that will be handed to store.add. -/
def insertRouteLocals (route : Route) : Route × PlainRoute :=
  let copy := route.spreadCopy
  let copy2 := if copy.id = IdField.null then { copy with id := IdField.absent } else copy
  (route, copy2)

/-- The record RouteDatabase.insertRoute hands to store.add. -/
def preparedRecord (route : Route) : PlainRoute :=
  (insertRouteLocals route).2

/-- A record as stored in the routes object store: the keyPath property
id is always set to the record key. -/
structure StoredRecord where
  id : ℤ
  created : ℤ
  coordinates : List Coordinate
deriving DecidableEq

/-- Modelled from the spec: the state of the backing IndexedDB routes
store (spec sections 3, 4.3 and 6) - the auto-increment key generator,
the stored records in insertion order, and the number of connections
currently open. The store code itself is a browser API, not part of
src/. -/
structure DBState where
  nextId : ℤ
  records : List StoredRecord
  openConnections : ℕ
deriving DecidableEq

/-- The environment outcome of one store call: the open and the
transaction request both succeed, the open is rejected with a cause, or
the request inside the transaction is rejected with a cause. -/
inductive StoreEnv where
  | ok
  | openFail (cause : String)
  | opFail (cause : String)
deriving DecidableEq

/-- Modelled from the spec: store.add on the routes store (keyPath id,
autoIncrement, spec section 6). A record without an id property gets
the generator key injected as its id; an explicit numeric id is used as
the key (bumping the generator past it) and collides when that key is
already present; a null id is not a valid key. The transaction commits
the single record or nothing. -/
def DBState.addRecord (s : DBState) (r : PlainRoute) : DBState × Except String ℤ :=
  match r.id with
  | IdField.absent =>
    ({ s with nextId := s.nextId + 1,
              records := s.records ++ [⟨s.nextId, r.created, r.coordinates⟩] },
      Except.ok s.nextId)
  | IdField.null => (s, Except.error "DataError")
  | IdField.val v =>
    if v ∈ s.records.map StoredRecord.id then (s, Except.error "ConstraintError")
    else ({ s with nextId := max s.nextId (v + 1),
                   records := s.records ++ [⟨v, r.created, r.coordinates⟩] },
      Except.ok v)

/-- RouteDatabase.insertRoute (src/app.js lines 231-253) over the
modelled store. Returns the new store state and the value the awaiting
caller receives: the rejection string on the failure paths, otherwise
the return value of the async function, which is undefined (none) since
the function body has no return statement - the assigned id appears
only in the log and in the discarded inner resolution message. Both
handlers of the add request close the connection before settling. -/
def insertRoute (s : DBState) (route : Route) (env : StoreEnv) :
    DBState × Except String (Option ℤ) :=
  let record := preparedRecord route
  match env with
  | StoreEnv.openFail cause => (s, Except.error ("Database error: " ++ cause))
  | StoreEnv.opFail cause =>
    ({ s with openConnections := s.openConnections + 1 - 1 },
      Except.error ("Error adding route: " ++ cause))
  | StoreEnv.ok =>
    let s1 := { s with openConnections := s.openConnections + 1 }
    match s1.addRecord record with
    | (s2, Except.ok _) =>
      ({ s2 with openConnections := s2.openConnections - 1 }, Except.ok none)
    | (s2, Except.error cause) =>
      ({ s2 with openConnections := s2.openConnections - 1 },
        Except.error ("Error adding route: " ++ cause))

/-- A stored record read back as a plain object: the id property is
present and numeric. -/
def StoredRecord.toPlain (rec : StoredRecord) : PlainRoute :=
  ⟨IdField.val rec.id, rec.created, rec.coordinates⟩

/-- Route.fromPlainObject (src/app.js lines 180-186): rebuild every
coordinate and then the route through their constructors, with the
null/undefined defaults of each (an absent id reaches the Route
constructor as undefined and defaults to null; stored Date values are
truthy and survive). -/
def Route.fromPlainObject (obj : PlainRoute) (now : ℤ) : Route :=
  let coordinates := obj.coordinates.map
    (fun coord => Coordinate.make coord.lat coord.lon (some coord.timestamp) now)
  Route.make (match obj.id with | IdField.absent => none | IdField.null => none | IdField.val v => some v)
    (some obj.created) (some coordinates) now

/-- RouteDatabase.listRoutes (src/app.js lines 259-275): getAll inside
a readonly transaction, every record mapped through
Route.fromPlainObject. Neither the success nor the error handler closes
the connection. -/
def listRoutes (s : DBState) (env : StoreEnv) (now : ℤ) :
    DBState × Except String (List Route) :=
  match env with
  | StoreEnv.openFail cause => (s, Except.error ("Database error: " ++ cause))
  | StoreEnv.opFail cause =>
    ({ s with openConnections := s.openConnections + 1 },
      Except.error ("Error listing routes" ++ cause))
  | StoreEnv.ok =>
    ({ s with openConnections := s.openConnections + 1 },
      Except.ok (s.records.map (fun rec => Route.fromPlainObject rec.toPlain now)))

/-- A concrete route carrying the id 5. -/
def routeWithId5 : Route := ⟨some 5, 1000, []⟩

/-- A concrete route without an id (a freshly tracked route). -/
def routeNoId : Route := ⟨none, 2000, []⟩

/-- A concrete empty store state with no open connection. -/
def dbEmpty : DBState := ⟨1, [], 0⟩

/-- A concrete first coordinate. -/
def coordA : Coordinate := ⟨52, 13, 0⟩

/-- A concrete second, most recently appended coordinate. -/
def coordB : Coordinate := ⟨53, 14, 60000⟩

/-- A concrete route with exactly two coordinates. -/
def twoPointRoute : Route := ⟨none, 0, [coordA, coordB]⟩

/-- The record handed to store.add keeps the created instant of the
route. -/
theorem preparedRecord_created (r : Route) : (preparedRecord r).created = r.created := by
  cases h : r.id <;>
    simp [preparedRecord, insertRouteLocals, Route.spreadCopy, h]

/-- The record handed to store.add keeps the coordinate sequence of the
route. -/
theorem preparedRecord_coordinates (r : Route) :
    (preparedRecord r).coordinates = r.coordinates := by
  cases h : r.id <;>
    simp [preparedRecord, insertRouteLocals, Route.spreadCopy, h]

/-- The id property of the record handed to store.add: absent when the
route id is null, the carried value otherwise. -/
theorem preparedRecord_id (r : Route) :
    (preparedRecord r).id =
      (match r.id with | none => IdField.absent | some v => IdField.val v) := by
  cases h : r.id <;>
    simp [preparedRecord, insertRouteLocals, Route.spreadCopy, h]

/-- C1 counterexample: a route that carries the id 5 is handed to the
store with its id property present and equal to 5, not stripped. -/
theorem c1_counterexample :
    (preparedRecord routeWithId5).id = IdField.val 5 ∧
      (preparedRecord routeWithId5).id ≠ IdField.absent := by
  decide

/-- C1 (amended): insertRoute strips the id property only when it is
null; a route with a non-null id is handed to the store with that id
intact, and only a route without an id receives the fresh generator id
from the store on a successful add. -/
theorem c1_insert_strips_only_null_id : ∀ (r : Route) (s : DBState),
    (preparedRecord r).id =
        (match r.id with | none => IdField.absent | some v => IdField.val v) ∧
      (r.id = none → (s.addRecord (preparedRecord r)).2 = Except.ok s.nextId) := by
  intro r s
  refine ⟨preparedRecord_id r, fun h => ?_⟩
  simp [preparedRecord, insertRouteLocals, Route.spreadCopy, h, DBState.addRecord]

/-- C1 witness at the concrete id-less route and the empty store. -/
theorem c1_witness :
    (preparedRecord routeNoId).id = IdField.absent ∧
      (dbEmpty.addRecord (preparedRecord routeNoId)).2 = Except.ok 1 :=
  ⟨(c1_insert_strips_only_null_id routeNoId dbEmpty).1,
    (c1_insert_strips_only_null_id routeNoId dbEmpty).2 rfl⟩

/-- C2: converting any route to its persistable record form (the
shallow copy with the null id deleted) and rebuilding it through
Route.fromPlainObject preserves the id, the creation instant and every
coordinate in order. -/
theorem c2_roundTrip : ∀ (r : Route) (now : ℤ),
    (Route.fromPlainObject (preparedRecord r) now).id = r.id ∧
      (Route.fromPlainObject (preparedRecord r) now).created = r.created ∧
      (Route.fromPlainObject (preparedRecord r) now).coordinates = r.coordinates := by
  intro r now
  refine ⟨?_, ?_, ?_⟩
  · cases h : r.id <;>
      simp [Route.fromPlainObject, Route.make, preparedRecord, insertRouteLocals,
        Route.spreadCopy, h]
  · simp [Route.fromPlainObject, Route.make, preparedRecord_created]
  · simp only [Route.fromPlainObject, Route.make, preparedRecord_coordinates,
      Coordinate.make, Option.getD_some]
    exact List.map_id r.coordinates

/-- C3 evaluated at the failing input: on a two-coordinate route,
toHtml renders only the first coordinate; the most recently appended
coordinate is part of the route but is not rendered, and no elision
indicator is shown even though a point was omitted. -/
theorem c3_slice_omits_newest_point :
    twoPointRoute.htmlCoordinates = [coordA] ∧
      coordB ∈ twoPointRoute.coordinates ∧
      coordB ∉ twoPointRoute.htmlCoordinates ∧
      twoPointRoute.htmlEllipsis = false := by
  decide

/-- C6: a route with fewer than two coordinates has zero length, zero
duration and zero average speed. -/
theorem c6_degenerate_metrics : ∀ (r : Route), r.coordinates.length < 2 →
    r.getLength = 0 ∧ r.getDuration = 0 ∧ r.getAvgSpeed = 0 := by
  intro r h
  exact ⟨by simp [Route.getLength, h], by simp [Route.getDuration, h],
    by simp [Route.getAvgSpeed, h]⟩

/-- C6 witness at the concrete empty route. -/
theorem c6_witness :
    routeNoId.coordinates.length < 2 ∧
      (routeNoId.getLength = 0 ∧ routeNoId.getDuration = 0 ∧ routeNoId.getAvgSpeed = 0) :=
  ⟨by decide, c6_degenerate_metrics routeNoId (by decide)⟩

/-- C10: after the copy-and-delete prologue of insertRoute, the object
the caller passed still has its original id (a null id included), its
original creation instant and its original coordinate sequence; the
delete acted on the rebound shallow copy only. -/
theorem c10_insert_no_mutation : ∀ (route : Route),
    (insertRouteLocals route).1.id = route.id ∧
      (insertRouteLocals route).1.created = route.created ∧
      (insertRouteLocals route).1.coordinates = route.coordinates := by
  intro route
  exact ⟨rfl, rfl, rfl⟩

/-- C4 counterexample: inserting the concrete id-less route into the
empty store assigns the id 1 to the stored record, yet the value the
caller receives is undefined (ok none), not the assigned id. -/
theorem c4_counterexample :
    (insertRoute dbEmpty routeNoId StoreEnv.ok).2 = Except.ok none ∧
      ((insertRoute dbEmpty routeNoId StoreEnv.ok).1.records.map StoredRecord.id) = [1] ∧
      (insertRoute dbEmpty routeNoId StoreEnv.ok).2 ≠ Except.ok (some 1) := by
  have h0 : (insertRoute dbEmpty routeNoId StoreEnv.ok).2 = Except.ok none := rfl
  refine ⟨h0, rfl, ?_⟩
  rw [h0]
  simp

/-- C4 (amended): whenever insertRoute resolves successfully, the value
delivered to the caller is undefined; the newly assigned id is never
the result of the call. -/
theorem c4_insert_result_undefined :
    ∀ (s : DBState) (r : Route) (env : StoreEnv) (v : Option ℤ),
      (insertRoute s r env).2 = Except.ok v → v = none := by
  intro s r env v h
  cases env with
  | openFail c => simp [insertRoute] at h
  | opFail c => simp [insertRoute] at h
  | ok =>
    simp only [insertRoute] at h
    split at h
    · simp_all
    · simp_all

/-- C4 witness: the amended theorem applied at the concrete id-less
route, empty store and successful environment. -/
theorem c4_witness : (none : Option ℤ) = none ∧
    (insertRoute dbEmpty routeNoId StoreEnv.ok).2 = Except.ok none :=
  ⟨c4_insert_result_undefined dbEmpty routeNoId StoreEnv.ok none rfl, rfl⟩

/-- C5: insertRoute is atomic over the modelled store - every failure
path (open rejected, add request rejected, key collision) leaves the
stored records unchanged and surfaces an error string carrying the
underlying cause, and every success path appends exactly one record
holding the whole route (its creation instant and full coordinate
sequence). -/
theorem c5_insert_atomic : ∀ (s : DBState) (r : Route) (c : String),
    ((insertRoute s r (StoreEnv.openFail c)).1.records = s.records ∧
        (insertRoute s r (StoreEnv.openFail c)).2 =
          Except.error ("Database error: " ++ c)) ∧
      ((insertRoute s r (StoreEnv.opFail c)).1.records = s.records ∧
        (insertRoute s r (StoreEnv.opFail c)).2 =
          Except.error ("Error adding route: " ++ c)) ∧
      (r.id = none →
        (insertRoute s r StoreEnv.ok).2 = Except.ok none ∧
          (insertRoute s r StoreEnv.ok).1.records =
            s.records ++ [⟨s.nextId, r.created, r.coordinates⟩]) ∧
      (∀ v, r.id = some v → v ∉ s.records.map StoredRecord.id →
        (insertRoute s r StoreEnv.ok).2 = Except.ok none ∧
          (insertRoute s r StoreEnv.ok).1.records =
            s.records ++ [⟨v, r.created, r.coordinates⟩]) ∧
      (∀ v, r.id = some v → v ∈ s.records.map StoredRecord.id →
        (insertRoute s r StoreEnv.ok).1.records = s.records ∧
          (insertRoute s r StoreEnv.ok).2 =
            Except.error ("Error adding route: " ++ "ConstraintError")) := by
  intro s r c
  refine ⟨⟨rfl, rfl⟩, ⟨rfl, rfl⟩, fun h => ?_, fun v hv hmem => ?_, fun v hv hmem => ?_⟩
  · simp [insertRoute, DBState.addRecord, preparedRecord, insertRouteLocals,
      Route.spreadCopy, h]
  · simp [insertRoute, DBState.addRecord, preparedRecord, insertRouteLocals,
      Route.spreadCopy, hv, hmem]
  · simp [insertRoute, DBState.addRecord, preparedRecord, insertRouteLocals,
      Route.spreadCopy, hv, hmem]

/-- C5 witness: the successful branch of the atomicity theorem at the
concrete id-less route and the empty store. -/
theorem c5_witness :
    (insertRoute dbEmpty routeNoId StoreEnv.ok).2 = Except.ok none ∧
      (insertRoute dbEmpty routeNoId StoreEnv.ok).1.records =
        dbEmpty.records ++ [⟨dbEmpty.nextId, routeNoId.created, routeNoId.coordinates⟩] :=
  (c5_insert_atomic dbEmpty routeNoId "cause").2.2.1 rfl

/-- C7 counterexample: a successful listRoutes call on the empty store
with no open connection completes with one connection still open. -/
theorem c7_counterexample :
    dbEmpty.openConnections = 0 ∧
      (listRoutes dbEmpty StoreEnv.ok 0).1.openConnections = 1 := by
  decide

/-- C7 (amended): insertRoute opens and releases its connection on
every path (the open count is unchanged when the call completes), while
listRoutes leaks exactly one connection whenever its open succeeds and
only leaves the count unchanged when the open itself is rejected. -/
theorem c7_connection_accounting :
    ∀ (s : DBState) (r : Route) (env : StoreEnv) (now : ℤ) (c : String),
      (insertRoute s r env).1.openConnections = s.openConnections ∧
        (listRoutes s StoreEnv.ok now).1.openConnections = s.openConnections + 1 ∧
        (listRoutes s (StoreEnv.opFail c) now).1.openConnections = s.openConnections + 1 ∧
        (listRoutes s (StoreEnv.openFail c) now).1.openConnections = s.openConnections := by
  intro s r env now c
  refine ⟨?_, rfl, rfl, rfl⟩
  cases env with
  | openFail c2 => rfl
  | opFail c2 => simp [insertRoute]
  | ok =>
    cases hid : r.id with
    | none =>
      simp [insertRoute, DBState.addRecord, preparedRecord, insertRouteLocals,
        Route.spreadCopy, hid]
    | some v =>
      by_cases hmem : v ∈ s.records.map StoredRecord.id <;>
        simp [insertRoute, DBState.addRecord, preparedRecord, insertRouteLocals,
          Route.spreadCopy, hid, hmem]

/-- The intermediate haversine value is symmetric in its two points:
the squared half-angle sines absorb the sign of each delta and the
cosine product commutes. -/
theorem haversineA_comm (a b : Coordinate) : haversineA a b = haversineA b a := by
  simp only [haversineA]
  have hs : ∀ x y : ℝ, Real.sin ((x - y) / 2) = -Real.sin ((y - x) / 2) := by
    intro x y
    rw [show (x - y) / 2 = -((y - x) / 2) by ring, Real.sin_neg]
  rw [hs ((b.lat : ℝ) * Real.pi / 180) ((a.lat : ℝ) * Real.pi / 180),
    hs ((b.lon : ℝ) * Real.pi / 180) ((a.lon : ℝ) * Real.pi / 180)]
  ring

/-- C8: the haversine distance is symmetric - swapping the two points
gives the same distance. -/
theorem c8_haversine_symm : ∀ (a b : Coordinate), haversine a b = haversine b a := by
  intro a b
  simp only [haversine, haversineA_comm a b]

/-- Prepending an already comma-glued component to a joined list is the
same as joining with that component as an extra head. -/
theorem joinComma_glued_head (s p : String) (ps : List String) :
    joinComma ((s ++ ", " ++ p) :: ps) = s ++ ", " ++ joinComma (p :: ps) := by
  cases ps with
  | nil => simp [joinComma]
  | cons q qs => simp [joinComma, String.append_assoc]

/-- The humanizeSeconds loop started from a non-empty accumulator
produces the accumulator joined with the remaining non-zero
components. -/
theorem humanizeSecondsAux_nonempty :
    ∀ (units : List (String × ℕ)) (s : String) (n : ℕ), s.length ≠ 0 →
      humanizeSecondsAux units s n = joinComma (s :: durationParts units n) := by
  intro units
  induction units with
  | nil => intro s n hs; simp [humanizeSecondsAux, durationParts, joinComma]
  | cons u rest ih =>
    intro s n hs
    obtain ⟨unit, conversion⟩ := u
    by_cases h : n / conversion = 0
    · simp only [humanizeSecondsAux, durationParts, h, ne_eq, not_true_eq_false, ite_false,
        List.nil_append]
      exact ih s (n % conversion) hs
    · have hsp : (" ").length = 1 := rfl
      have hglue : (if s.length ≠ 0 then s ++ ", " else s) = s ++ ", " := if_pos hs
      have hassoc :
          ((s ++ ", ") ++ toString (n / conversion) ++ " " ++ unit) =
            s ++ ", " ++ (toString (n / conversion) ++ " " ++ unit) := by
        simp [String.append_assoc]
      have hlen : (s ++ ", " ++ (toString (n / conversion) ++ " " ++ unit)).length ≠ 0 := by
        simp [String.length_append, hsp]
      simp only [humanizeSecondsAux, durationParts, h, ne_eq, not_false_eq_true, ite_true,
        hglue, hassoc, List.singleton_append]
      rw [ih _ _ hlen, joinComma_glued_head]
      simp [joinComma]

/-- The humanizeSeconds loop started from the empty string produces
exactly the non-zero components joined by a comma and a space. -/
theorem humanizeSecondsAux_empty :
    ∀ (units : List (String × ℕ)) (n : ℕ),
      humanizeSecondsAux units "" n = joinComma (durationParts units n) := by
  intro units
  induction units with
  | nil => intro n; rfl
  | cons u rest ih =>
    intro n
    obtain ⟨unit, conversion⟩ := u
    by_cases h : n / conversion = 0
    · simp only [humanizeSecondsAux, durationParts, h, ne_eq, not_true_eq_false, ite_false,
        List.nil_append]
      exact ih (n % conversion)
    · have hsp : (" ").length = 1 := rfl
      have hlen : ("" ++ toString (n / conversion) ++ " " ++ unit).length ≠ 0 := by
        simp [String.length_append, hsp]
      have hcond : (if ("" : String).length ≠ 0 then ("" : String) ++ ", " else "") = "" := by
        simp
      simp only [humanizeSecondsAux, durationParts, h, ne_eq, not_false_eq_true, ite_true,
        hcond, List.singleton_append]
      rw [humanizeSecondsAux_nonempty rest _ _ hlen]
      simp [String.empty_append, joinComma]

/-- C9: humanizeSeconds emits exactly the non-zero day/hour/minute/
second components of the floor-division decomposition, in descending
unit order, joined by a comma and a space; in particular 3661 seconds
render as 1 h, 1 m, 1 s and 0 seconds render as the empty string. -/
theorem c9_humanizeSeconds :
    (∀ n : ℕ, humanizeSeconds n = joinComma (durationParts secondUnits n)) ∧
      humanizeSeconds 3661 = "1 h, 1 m, 1 s" ∧
      humanizeSeconds 0 = "" := by
  refine ⟨fun n => humanizeSecondsAux_empty secondUnits n, by decide, rfl⟩
